import Mathlib

/-!
Verification of `rust-bedrock-server-status` (src/lib.rs) against its
natural-language specification.

The single Rust source file implements one function
`status(h: String, p: Option<i32>) -> Result<Status, _>` that

  1. builds a RakNet unconnected-ping datagram
     (`0x01` id, 8-byte big-endian millisecond timestamp, 16-byte magic,
     8 random client-GUID bytes),
  2. sends it over UDP with hard-coded 2-second read/write timeouts,
  3. receives one datagram into a zero-initialised 1024-byte buffer,
  4. reads the server GUID from bytes [9..17) of that buffer
     (`i64::from_be_bytes`),
  5. slices the text payload as `&packet[35..amt]`
     (the Rust expression `8 + 8 + 16 + 2 + 1`), which panics when
     `amt < 35`,
  6. UTF-8-decodes the payload with
     `.expect("could not decode server data")` (a panic on failure),
  7. splits it on `;`, takes at most 9 tokens, and assembles the
     `Status` record, substituting defaults for unparsable integers.

Bytes are modelled as `Nat` (values < 256 where they come from real
datagrams), byte strings as `List Nat`, and Rust `i32`/`i64` values as
`Int`.  The pure part of `status` after `recv_from` is `processReply`
below; the datagram construction is `buildRequest`.
-/

namespace BedrockStatus

/-- The fixed 16-byte RakNet offline-message magic from the source:
`static MAGIC: [u8; 16] = [0x00, 0xFF, ...]`. -/
def MAGIC : List Nat :=
  [0x00, 0xFF, 0xFF, 0x00, 0xFE, 0xFE, 0xFE, 0xFE,
   0xFD, 0xFD, 0xFD, 0xFD, 0x12, 0x34, 0x56, 0x78]

/-- `i64::to_be_bytes`: the eight big-endian bytes of a 64-bit two's
complement integer. -/
def i64ToBeBytes (v : Int) : List Nat :=
  let u := (v % (2 : Int) ^ 64).toNat
  [u / 2 ^ 56 % 256, u / 2 ^ 48 % 256, u / 2 ^ 40 % 256, u / 2 ^ 32 % 256,
   u / 2 ^ 24 % 256, u / 2 ^ 16 % 256, u / 2 ^ 8 % 256, u % 256]

/-- Big-endian bytes to an unsigned value. -/
def beBytesToNat (bs : List Nat) : Nat :=
  bs.foldl (fun a b => a * 256 + b) 0

/-- `i64::from_be_bytes`: eight big-endian bytes to a signed 64-bit
two's complement value. -/
def i64FromBeBytes (bs : List Nat) : Int :=
  let u := beBytesToNat bs
  if u < 2 ^ 63 then (u : Int) else (u : Int) - 2 ^ 64

/-- The request datagram built by `status` before sending:
`buf.push(0x01)`, then the big-endian timestamp bytes, then `MAGIC`,
then the 8 random client-GUID bytes.  The timestamp and the GUID bytes
are the two run-time inputs of the construction. -/
def buildRequest (sinceEpochMs : Int) (clientGuid : List Nat) : List Nat :=
  [0x01] ++ i64ToBeBytes sinceEpochMs ++ MAGIC ++ clientGuid

/-- The receive buffer in the source is `let mut packet = [0u8; 1024]`. -/
def BUF_SIZE : Nat := 1024

/-- `recv_from` writes at most `BUF_SIZE` bytes of the incoming
datagram `data` into the buffer and returns their count `amt`. -/
def recvAmt (data : List Nat) : Nat := min data.length BUF_SIZE

/-- The 1024-byte buffer after `recv_from`: the (truncated) datagram
followed by the untouched zero initialisation. -/
def recvPacket (data : List Nat) : List Nat :=
  data.take BUF_SIZE ++ List.replicate (BUF_SIZE - recvAmt data) 0

/-- `let guid_bytes = &packet[(8+1)..(8+8+1)]` followed by
`i64::from_be_bytes` on those eight bytes. -/
def serverGuid (data : List Nat) : Int :=
  i64FromBeBytes (((recvPacket data).drop 9).take 8)

/-- `let server_data_bytes = &packet[(8 + 8 + 16 + 2 + 1)..amt]`, i.e.
bytes [35..amt) of the receive buffer.  (In Rust this slice panics when
`amt < 35`; that case is handled in `processReply`.) -/
def server_data_bytes (data : List Nat) : List Nat :=
  ((recvPacket data).take (recvAmt data)).drop 35

/-- A UTF-8 continuation byte, `0x80..=0xBF`. -/
def contByte (b : Nat) : Bool := 0x80 ≤ b && b ≤ 0xBF

/-- Rust `str::from_utf8` validity: standard UTF-8 with overlong forms,
surrogates and code points above U+10FFFF rejected. -/
def utf8Valid : List Nat → Bool
  | [] => true
  | b :: rest =>
    if b ≤ 0x7F then utf8Valid rest
    else if 0xC2 ≤ b && b ≤ 0xDF then
      match rest with
      | c1 :: r => contByte c1 && utf8Valid r
      | [] => false
    else if 0xE0 ≤ b && b ≤ 0xEF then
      match rest with
      | c1 :: c2 :: r =>
        (if b = 0xE0 then 0xA0 ≤ c1 && c1 ≤ 0xBF
         else if b = 0xED then 0x80 ≤ c1 && c1 ≤ 0x9F
         else contByte c1) && contByte c2 && utf8Valid r
      | _ => false
    else if 0xF0 ≤ b && b ≤ 0xF4 then
      match rest with
      | c1 :: c2 :: c3 :: r =>
        (if b = 0xF0 then 0x90 ≤ c1 && c1 ≤ 0xBF
         else if b = 0xF4 then 0x80 ≤ c1 && c1 ≤ 0x8F
         else contByte c1) && contByte c2 && contByte c3 && utf8Valid r
      | _ => false
    else false

/-- Rust `str::split(";")` at the byte level (every separator byte in
valid UTF-8 text stands for the character `;` itself, since bytes below
0x80 never occur inside a multi-byte sequence).  Like Rust, the empty
input yields one empty token and each separator starts a new token. -/
def splitOnByte (sep : Nat) : List Nat → List (List Nat)
  | [] => [[]]
  | b :: rest =>
    if b = sep then [] :: splitOnByte sep rest
    else
      match splitOnByte sep rest with
      | t :: ts => (b :: t) :: ts
      | [] => [[b]]

/-- An ASCII decimal digit byte. -/
def isDigitByte (b : Nat) : Bool := 48 ≤ b && b ≤ 57

/-- Decimal digit bytes to a number, most significant first. -/
def digitBytesToNat (ds : List Nat) : Nat :=
  ds.foldl (fun a b => a * 10 + (b - 48)) 0

/-- Rust `str::parse::<i32>()`: an optional single `+`/`-` sign, then at
least one ASCII digit and nothing else, with the value required to fit
in a signed 32-bit integer; anything else is a parse error (`none`). -/
def parseI32 (s : List Nat) : Option Int :=
  let signed : Bool × List Nat :=
    match s with
    | 45 :: rest => (true, rest)
    | 43 :: rest => (false, rest)
    | _ => (false, s)
  let ds := signed.2
  if ds.isEmpty then none
  else if ds.all isDigitByte then
    let v : Int := (if signed.1 then -1 else 1) * (digitBytesToNat ds : Int)
    if -(2 ^ 31) ≤ v ∧ v < 2 ^ 31 then some v else none
  else none

/-- `pub struct Server` from the source; Rust `String`s are byte lists
and the two-element `motd` array is a pair. -/
structure Server where
  host : List Nat
  port : Int
  remote_host : List Nat
  guid : Int
  edition : List Nat
  motd : List Nat × List Nat
deriving DecidableEq, Repr

/-- `pub struct Players`. -/
structure Players where
  online : Int
  max : Int
deriving DecidableEq, Repr

/-- `pub struct Version`. -/
structure Version where
  protocol : Int
  name : List Nat
deriving DecidableEq, Repr

/-- `pub struct Status`. -/
structure Status where
  server : Server
  version : Version
  players : Players
deriving DecidableEq, Repr

/-- `socket.recv_from` returns the peer address the datagram arrived
from; the socket is bound on `Ipv4Addr::UNSPECIFIED`, so the peer is an
IPv4 socket address: four octets and a port. -/
structure SocketAddrV4 where
  a : Nat
  b : Nat
  c : Nat
  d : Nat
  port : Nat
deriving DecidableEq, Repr

/-- Decimal digit bytes of a natural number, as Rust `Display` writes
them. -/
def natDecimalBytes (n : Nat) : List Nat :=
  (Nat.toDigits 10 n).map Char.toNat

/-- Rust `i64` `Display` (used by `guid.to_string()`): a `-` sign for
negative values, then the decimal digits. -/
def i64ToStringBytes (v : Int) : List Nat :=
  if v < 0 then 45 :: natDecimalBytes (-v).toNat else natDecimalBytes v.toNat

/-- Rust `SocketAddr::to_string()` for a V4 address: `a.b.c.d:port`
(46 is `.`, 58 is `:`). -/
def socketAddrToString (s : SocketAddrV4) : List Nat :=
  natDecimalBytes s.a ++ [46] ++ natDecimalBytes s.b ++ [46] ++
    natDecimalBytes s.c ++ [46] ++ natDecimalBytes s.d ++ [58] ++
    natDecimalBytes s.port

/-- `let server_data_parts = server_data.split(";").take(9).collect()`. -/
def server_data_parts (payload : List Nat) : List (List Nat) :=
  (splitOnByte 59 payload).take 9

/-- The closure `get_part_string`: `server_data_parts.get(index)` with
the empty string for a missing index. -/
def get_part_string (parts : List (List Nat)) (index : Nat) : List Nat :=
  parts.getD index []

/-- The `Ok(Status { ... })` expression of the source: assembles the
result from the caller-supplied host and port, the binary server GUID,
the reply's source address, and the split payload tokens. -/
def mkStatus (h : List Nat) (port : Int) (guid : Int) (src : SocketAddrV4)
    (payload : List Nat) : Status :=
  let parts := server_data_parts payload
  { server :=
      { host := h
        port := port
        guid := guid
        remote_host := socketAddrToString src
        motd := (get_part_string parts 1, get_part_string parts 7)
        edition := get_part_string parts 0 }
    version :=
      { protocol := (parseI32 (get_part_string parts 2)).getD 1
        name := get_part_string parts 3 }
    players :=
      { online := (parseI32 (get_part_string parts 4)).getD (-1)
        max := (parseI32 (get_part_string parts 5)).getD (-1) } }

/-- The two ways the reply-processing code of `status` can panic:
`sliceFail` is the out-of-bounds slice `&packet[35..amt]` when
`amt < 35`, and `utf8Fail` is
`.expect("could not decode server data")` on invalid UTF-8.  The source
has no typed error for either case. -/
inductive ReplyPanic where
  | sliceFail
  | utf8Fail
deriving DecidableEq, Repr

instance {ε α : Type} [DecidableEq ε] [DecidableEq α] :
    DecidableEq (Except ε α) := fun x y =>
  match x, y with
  | .error e, .error f =>
    if h : e = f then .isTrue (by rw [h]) else .isFalse (by simp [h])
  | .error _, .ok _ => .isFalse (by simp)
  | .ok _, .error _ => .isFalse (by simp)
  | .ok a, .ok b =>
    if h : a = b then .isTrue (by rw [h]) else .isFalse (by simp [h])

/-- The pure reply-processing part of `status`, from `recv_from` to the
final `Ok(Status { ... })`: read the GUID from bytes [9..17) of the
zero-padded buffer, slice the payload at [35..amt) (panic when
`amt < 35`), UTF-8-validate it (panic when invalid), then split and
assemble.  `data` is the incoming datagram, `h`/`port` the caller
arguments, `src` the peer address from `recv_from`. -/
def processReply (data : List Nat) (h : List Nat) (port : Int)
    (src : SocketAddrV4) : Except ReplyPanic Status :=
  if recvAmt data < 35 then .error .sliceFail
  else if utf8Valid (server_data_bytes data) then
    .ok (mkStatus h port (serverGuid data) src (server_data_bytes data))
  else .error .utf8Fail

/-- The arguments of `pub fn status (h: String, p: Option<i32>)` — the
entire caller-visible input surface of a query. -/
structure StatusArgs where
  h : List Nat
  p : Option Int
deriving DecidableEq, Repr

/-- `p.unwrap_or(19132)`. -/
def resolvedPort (args : StatusArgs) : Int := args.p.getD 19132

/-- `socket.set_read_timeout(Some(Duration::new(2, 0)))` — the
(seconds, nanoseconds) read timeout applied on a call with the given
arguments. -/
def appliedReadTimeout (_ : StatusArgs) : Nat × Nat := (2, 0)

/-- `socket.set_write_timeout(Some(Duration::new(2, 0)))` — the
(seconds, nanoseconds) write timeout applied on a call with the given
arguments. -/
def appliedWriteTimeout (_ : StatusArgs) : Nat × Nat := (2, 0)

/-- Whether any caller input can change either applied socket timeout:
the spec calls the timeouts "configurable". -/
def timeoutConfigurable : Prop :=
  (∃ x y : StatusArgs, appliedReadTimeout x ≠ appliedReadTimeout y) ∨
  (∃ x y : StatusArgs, appliedWriteTimeout x ≠ appliedWriteTimeout y)

/-- Follows the spec's words, for comparison with `server_data_bytes`:
"Payload begins at byte offset 41 (after id, timestamp, server GUID,
magic, and the server's own GUID echo) and runs to `byte_count`". -/
def specPayloadBytes (data : List Nat) : List Nat :=
  (data.take (recvAmt data)).drop 41

/-- A 42-byte reply: 35 zero header bytes followed by the seven payload
bytes `MCPE;AB`. -/
def reply42 : List Nat :=
  List.replicate 35 0 ++ [77, 67, 80, 69, 59, 65, 66]

/-- A 10-byte reply, shorter than the 17 bytes needed to reach the end
of the GUID field. -/
def reply10 : List Nat := List.replicate 10 0

/-- A 20-byte reply, long enough for the GUID field but shorter than
the 35-byte slice offset. -/
def reply20 : List Nat := List.replicate 20 0

/-- A 36-byte reply whose single payload byte `0xFF` is not valid
UTF-8. -/
def replyBadUtf8 : List Nat := List.replicate 35 0 ++ [255]

/-- A well-formed reply: id `0x1C`, timestamp 1, server GUID 7, magic,
a two-byte length field, then the payload `MCPE;hi;475;1.18;5;20;7;l2`
(tokens: edition, motd line 1, protocol, version name, online, max,
unique id, motd line 2). -/
def goodReply : List Nat :=
  [0x1C] ++ [0, 0, 0, 0, 0, 0, 0, 1] ++ [0, 0, 0, 0, 0, 0, 0, 7] ++
    MAGIC ++ [0, 26] ++
    [77, 67, 80, 69, 59, 104, 105, 59, 52, 55, 53, 59, 49, 46, 49, 56,
     59, 53, 59, 50, 48, 59, 55, 59, 108, 50]

/-- The `Status` the source produces for `goodReply` when queried as
host `h` (byte 104), port 19132, with the reply arriving from
`1.2.3.4:19132`. -/
def goodStatus : Status :=
  { server :=
      { host := [104]
        port := 19132
        remote_host := [49, 46, 50, 46, 51, 46, 52, 58, 49, 57, 49, 51, 50]
        guid := 7
        edition := [77, 67, 80, 69]
        motd := ([104, 105], [108, 50]) }
    version := { protocol := 475, name := [49, 46, 49, 56] }
    players := { online := 5, max := 20 } }

/-- A reply whose payload `;;;;;;42424242` has the text
server-unique-id `42424242` at token index 6 while the binary server
GUID is 7, and nothing in any other token. -/
def replyMismatch : List Nat :=
  [0x1C] ++ [0, 0, 0, 0, 0, 0, 0, 1] ++ [0, 0, 0, 0, 0, 0, 0, 7] ++
    MAGIC ++ [0, 14] ++
    [59, 59, 59, 59, 59, 59, 52, 50, 52, 50, 52, 50, 52, 50]

/-- The `Status` the source produces for `replyMismatch` (host byte
104, port 19132, peer `1.2.3.4:19132`): every token but index 6 is
absent, and the mismatching text unique-id appears in no field. -/
def mismatchStatus : Status :=
  { server :=
      { host := [104]
        port := 19132
        remote_host := [49, 46, 50, 46, 51, 46, 52, 58, 49, 57, 49, 51, 50]
        guid := 7
        edition := []
        motd := ([], []) }
    version := { protocol := 1, name := [] }
    players := { online := -1, max := -1 } }

/-- A reply whose payload `MCPE;m;abc;n;xx;yy` has unparsable
protocol (`abc`), online (`xx`) and max (`yy`) tokens. -/
def replyBadNumbers : List Nat :=
  [0x1C] ++ [0, 0, 0, 0, 0, 0, 0, 1] ++ [0, 0, 0, 0, 0, 0, 0, 7] ++
    MAGIC ++ [0, 18] ++
    [77, 67, 80, 69, 59, 109, 59, 97, 98, 99, 59, 110, 59, 120, 120,
     59, 121, 121]

lemma recvAmt_le_length (data : List Nat) : recvAmt data ≤ data.length :=
  Nat.min_le_left _ _

lemma recvAmt_le_buf (data : List Nat) : recvAmt data ≤ BUF_SIZE :=
  Nat.min_le_right _ _

lemma length_take_buf (data : List Nat) :
    (data.take BUF_SIZE).length = recvAmt data := by
  rw [List.length_take, recvAmt, Nat.min_comm]

lemma recvPacket_take_amt (data : List Nat) :
    (recvPacket data).take (recvAmt data) = data.take (recvAmt data) := by
  rw [recvPacket,
    List.take_append_of_le_length (by rw [length_take_buf]),
    List.take_take]
  have h := recvAmt_le_buf data
  congr 1
  omega

lemma server_data_bytes_raw (data : List Nat) :
    server_data_bytes data = (data.take (recvAmt data)).drop 35 := by
  rw [server_data_bytes, recvPacket_take_amt]

lemma recvPacket_slice (data : List Nat) (i k : Nat)
    (h : i + k ≤ recvAmt data) :
    ((recvPacket data).drop i).take k = (data.drop i).take k := by
  have hb := recvAmt_le_buf data
  rw [recvPacket,
    List.drop_append_of_le_length (by rw [length_take_buf]; omega),
    List.take_append_of_le_length
      (by rw [List.length_drop, length_take_buf]; omega),
    List.drop_take, List.take_take]
  congr 1
  omega

lemma getD_take_of_lt {α : Type} (l : List α) (n i : Nat) (d : α)
    (h : i < n) : (l.take n).getD i d = l.getD i d := by
  induction l generalizing n i with
  | nil => simp
  | cons a t ih =>
    match n, i with
    | n + 1, 0 => simp
    | n + 1, i + 1 =>
      simp only [List.take_succ_cons, List.getD_cons_succ]
      exact ih n i (by omega)

lemma processReply_ok_iff (data h : List Nat) (p : Int)
    (src : SocketAddrV4) (st : Status) :
    processReply data h p src = .ok st ↔
      35 ≤ recvAmt data ∧ utf8Valid (server_data_bytes data) = true ∧
      st = mkStatus h p (serverGuid data) src (server_data_bytes data) := by
  unfold processReply
  by_cases h35 : recvAmt data < 35
  · rw [if_pos h35]
    simp
    omega
  · rw [if_neg h35]
    by_cases hu : utf8Valid (server_data_bytes data) = true
    · simp [hu, eq_comm]
      omega
    · simp [hu]

/-- C1, counterexample: on a 42-byte reply the payload handed to the
result mapper is the seven bytes from offset 35, not the single byte
from offset 41 that the claim predicts (the source slices at
`8 + 8 + 16 + 2 + 1 = 35`). -/
theorem c1_counterexample :
    server_data_bytes reply42 = [77, 67, 80, 69, 59, 65, 66] ∧
    specPayloadBytes reply42 = [66] ∧
    server_data_bytes reply42 ≠ specPayloadBytes reply42 := by
  decide

/-- C1, amended: the text payload handed to the result mapper consists
of exactly the reply bytes from offset 35 up to `byte_count` (after the
1-byte id, 8-byte timestamp, 8-byte server GUID, 16-byte magic, and a
2-byte field), and is empty exactly when `byte_count = 35` (for
`byte_count < 35` the slice panics instead, see C2). -/
theorem c1_payload_offset_amended (data : List Nat)
    (h35 : 35 ≤ recvAmt data) :
    server_data_bytes data = (data.take (recvAmt data)).drop 35 ∧
    (server_data_bytes data = [] ↔ recvAmt data = 35) := by
  refine ⟨server_data_bytes_raw data, ?_⟩
  rw [server_data_bytes_raw, List.drop_eq_nil_iff, List.length_take]
  have h := recvAmt_le_length data
  omega

/-- C1, witness: the amended statement at the concrete 42-byte reply. -/
theorem c1_payload_offset_amended_witness :
    35 ≤ recvAmt reply42 ∧
    (server_data_bytes reply42 = (reply42.take (recvAmt reply42)).drop 35 ∧
     (server_data_bytes reply42 = [] ↔ recvAmt reply42 = 35)) :=
  ⟨by decide, c1_payload_offset_amended reply42 (by decide)⟩

/-- C2, counterexample: a 20-byte reply is in the claimed "17 to 41"
empty-payload range, but the source's slice `&packet[35..amt]` panics
(`sliceFail`); no `TooShort` error exists anywhere in the code. -/
theorem c2_counterexample :
    processReply reply20 [] 0 ⟨0, 0, 0, 0, 0⟩ =
      Except.error ReplyPanic.sliceFail := by
  decide

/-- C2, amended: for every received byte sequence shorter than 35
bytes the reply processing panics at the slice `&packet[35..amt]`
(there is no `TooShort` error, and for lengths below 17 the GUID bytes
are read from the zero-initialised buffer beyond the received data,
not rejected). -/
theorem c2_short_reply_panics_amended (data h : List Nat) (p : Int)
    (src : SocketAddrV4) (hlt : recvAmt data < 35) :
    processReply data h p src = .error .sliceFail := by
  unfold processReply
  rw [if_pos hlt]

/-- C2, witness: the amended statement at a concrete 10-byte reply. -/
theorem c2_short_reply_panics_amended_witness :
    recvAmt reply10 < 35 ∧
    processReply reply10 [] 0 ⟨0, 0, 0, 0, 0⟩ = .error .sliceFail :=
  ⟨by decide, c2_short_reply_panics_amended reply10 [] 0 ⟨0, 0, 0, 0, 0⟩
    (by decide)⟩

/-- C3: for any timestamp and any 8-byte client GUID, the request
datagram is exactly 33 bytes — the byte `0x01`, the 8 big-endian
timestamp bytes, the 16 magic bytes at positions [9..25), and the
8 GUID bytes — and the magic is the fixed constant
`00 FF FF 00 FE FE FE FE FD FD FD FD 12 34 56 78`. -/
theorem c3_request_layout (ts : Int) (g : List Nat) (hg : g.length = 8) :
    (buildRequest ts g).length = 33 ∧
    ((buildRequest ts g).drop 9).take 16 = MAGIC ∧
    (buildRequest ts g).take 1 = [0x01] ∧
    ((buildRequest ts g).drop 1).take 8 = i64ToBeBytes ts ∧
    (buildRequest ts g).drop 25 = g ∧
    MAGIC = [0x00, 0xFF, 0xFF, 0x00, 0xFE, 0xFE, 0xFE, 0xFE,
             0xFD, 0xFD, 0xFD, 0xFD, 0x12, 0x34, 0x56, 0x78] := by
  refine ⟨?_, rfl, rfl, rfl, rfl, rfl⟩
  simp [buildRequest, i64ToBeBytes, MAGIC, hg]

/-- C3, witness: the statement at timestamp 0 and GUID bytes
`[4,4,4,4,4,4,4,4]`. -/
theorem c3_request_layout_witness :
    (List.replicate 8 4).length = 8 ∧
    ((buildRequest 0 (List.replicate 8 4)).length = 33 ∧
     ((buildRequest 0 (List.replicate 8 4)).drop 9).take 16 = MAGIC ∧
     (buildRequest 0 (List.replicate 8 4)).take 1 = [0x01] ∧
     ((buildRequest 0 (List.replicate 8 4)).drop 1).take 8 =
       i64ToBeBytes 0 ∧
     (buildRequest 0 (List.replicate 8 4)).drop 25 = List.replicate 8 4 ∧
     MAGIC = [0x00, 0xFF, 0xFF, 0x00, 0xFE, 0xFE, 0xFE, 0xFE,
              0xFD, 0xFD, 0xFD, 0xFD, 0x12, 0x34, 0x56, 0x78]) :=
  ⟨by decide, c3_request_layout 0 (List.replicate 8 4) (by decide)⟩

/-- C4: the result mapper splits the payload on `;`, keeps at most the
first 9 tokens, maps every missing index to the empty string, and
assembles the `Status` as: edition from token 0, MOTD lines from
tokens 1 and 7, protocol from token 2, version name from token 3,
online/max players from tokens 4/5, plus the caller-supplied host and
port, the rendered source address, and the binary server GUID. -/
theorem c4_mapper_fields (payload h : List Nat) (p guid : Int)
    (src : SocketAddrV4) (i : Nat)
    (hi : (server_data_parts payload).length ≤ i) :
    (mkStatus h p guid src payload).server.edition =
      (splitOnByte 59 payload).getD 0 [] ∧
    (mkStatus h p guid src payload).server.motd =
      ((splitOnByte 59 payload).getD 1 [],
       (splitOnByte 59 payload).getD 7 []) ∧
    (mkStatus h p guid src payload).version.protocol =
      (parseI32 ((splitOnByte 59 payload).getD 2 [])).getD 1 ∧
    (mkStatus h p guid src payload).version.name =
      (splitOnByte 59 payload).getD 3 [] ∧
    (mkStatus h p guid src payload).players.online =
      (parseI32 ((splitOnByte 59 payload).getD 4 [])).getD (-1) ∧
    (mkStatus h p guid src payload).players.max =
      (parseI32 ((splitOnByte 59 payload).getD 5 [])).getD (-1) ∧
    (mkStatus h p guid src payload).server.host = h ∧
    (mkStatus h p guid src payload).server.port = p ∧
    (mkStatus h p guid src payload).server.guid = guid ∧
    (mkStatus h p guid src payload).server.remote_host =
      socketAddrToString src ∧
    (server_data_parts payload).length ≤ 9 ∧
    get_part_string (server_data_parts payload) i = [] := by
  have t0 := getD_take_of_lt (splitOnByte 59 payload) 9 0 ([] : List Nat)
    (by omega)
  have t1 := getD_take_of_lt (splitOnByte 59 payload) 9 1 ([] : List Nat)
    (by omega)
  have t2 := getD_take_of_lt (splitOnByte 59 payload) 9 2 ([] : List Nat)
    (by omega)
  have t3 := getD_take_of_lt (splitOnByte 59 payload) 9 3 ([] : List Nat)
    (by omega)
  have t4 := getD_take_of_lt (splitOnByte 59 payload) 9 4 ([] : List Nat)
    (by omega)
  have t5 := getD_take_of_lt (splitOnByte 59 payload) 9 5 ([] : List Nat)
    (by omega)
  have t7 := getD_take_of_lt (splitOnByte 59 payload) 9 7 ([] : List Nat)
    (by omega)
  refine ⟨t0, ?_, ?_, t3, ?_, ?_, rfl, rfl, rfl, rfl,
    List.length_take_le 9 _, List.getD_eq_default _ _ hi⟩
  · show (get_part_string (server_data_parts payload) 1,
          get_part_string (server_data_parts payload) 7) = _
    rw [show get_part_string (server_data_parts payload) 1 =
        (splitOnByte 59 payload).getD 1 [] from t1,
      show get_part_string (server_data_parts payload) 7 =
        (splitOnByte 59 payload).getD 7 [] from t7]
  · exact congrArg (fun t => (parseI32 t).getD 1) t2
  · exact congrArg (fun t => (parseI32 t).getD (-1)) t4
  · exact congrArg (fun t => (parseI32 t).getD (-1)) t5

/-- C4, witness: the statement at the one-token payload `MCPE` with
missing index 5. -/
theorem c4_mapper_fields_witness :
    (server_data_parts [77, 67, 80, 69]).length ≤ 5 ∧
    ((mkStatus [104] 19132 7 ⟨1, 2, 3, 4, 19132⟩
        [77, 67, 80, 69]).server.edition =
      (splitOnByte 59 [77, 67, 80, 69]).getD 0 [] ∧
     (mkStatus [104] 19132 7 ⟨1, 2, 3, 4, 19132⟩
        [77, 67, 80, 69]).server.motd =
      ((splitOnByte 59 [77, 67, 80, 69]).getD 1 [],
       (splitOnByte 59 [77, 67, 80, 69]).getD 7 []) ∧
     (mkStatus [104] 19132 7 ⟨1, 2, 3, 4, 19132⟩
        [77, 67, 80, 69]).version.protocol =
      (parseI32 ((splitOnByte 59 [77, 67, 80, 69]).getD 2 [])).getD 1 ∧
     (mkStatus [104] 19132 7 ⟨1, 2, 3, 4, 19132⟩
        [77, 67, 80, 69]).version.name =
      (splitOnByte 59 [77, 67, 80, 69]).getD 3 [] ∧
     (mkStatus [104] 19132 7 ⟨1, 2, 3, 4, 19132⟩
        [77, 67, 80, 69]).players.online =
      (parseI32 ((splitOnByte 59 [77, 67, 80, 69]).getD 4 [])).getD (-1) ∧
     (mkStatus [104] 19132 7 ⟨1, 2, 3, 4, 19132⟩
        [77, 67, 80, 69]).players.max =
      (parseI32 ((splitOnByte 59 [77, 67, 80, 69]).getD 5 [])).getD (-1) ∧
     (mkStatus [104] 19132 7 ⟨1, 2, 3, 4, 19132⟩
        [77, 67, 80, 69]).server.host = [104] ∧
     (mkStatus [104] 19132 7 ⟨1, 2, 3, 4, 19132⟩
        [77, 67, 80, 69]).server.port = 19132 ∧
     (mkStatus [104] 19132 7 ⟨1, 2, 3, 4, 19132⟩
        [77, 67, 80, 69]).server.guid = 7 ∧
     (mkStatus [104] 19132 7 ⟨1, 2, 3, 4, 19132⟩
        [77, 67, 80, 69]).server.remote_host =
      socketAddrToString ⟨1, 2, 3, 4, 19132⟩ ∧
     (server_data_parts [77, 67, 80, 69]).length ≤ 9 ∧
     get_part_string (server_data_parts [77, 67, 80, 69]) 5 = []) :=
  ⟨by decide, c4_mapper_fields [77, 67, 80, 69] [104] 19132 7
    ⟨1, 2, 3, 4, 19132⟩ 5 (by decide)⟩

/-- C5: on a reply long enough to slice and valid as UTF-8, the call
succeeds, and whenever the protocol, online or max token fails to
parse as a signed 32-bit integer (also when absent, since a missing
token is the empty string), the corresponding field takes its default:
protocol 1, online -1, max -1. -/
theorem c5_numeric_defaults (data h : List Nat) (p : Int)
    (src : SocketAddrV4) (h35 : 35 ≤ recvAmt data)
    (hu : utf8Valid (server_data_bytes data) = true) :
    processReply data h p src =
      .ok (mkStatus h p (serverGuid data) src (server_data_bytes data)) ∧
    (parseI32 (get_part_string
        (server_data_parts (server_data_bytes data)) 2) = none →
      (mkStatus h p (serverGuid data) src
        (server_data_bytes data)).version.protocol = 1) ∧
    (parseI32 (get_part_string
        (server_data_parts (server_data_bytes data)) 4) = none →
      (mkStatus h p (serverGuid data) src
        (server_data_bytes data)).players.online = -1) ∧
    (parseI32 (get_part_string
        (server_data_parts (server_data_bytes data)) 5) = none →
      (mkStatus h p (serverGuid data) src
        (server_data_bytes data)).players.max = -1) := by
  refine ⟨?_, ?_, ?_, ?_⟩
  · unfold processReply
    rw [if_neg (by omega)]
    simp [hu]
  · intro hn
    show (parseI32 (get_part_string
      (server_data_parts (server_data_bytes data)) 2)).getD 1 = 1
    rw [hn]
    rfl
  · intro hn
    show (parseI32 (get_part_string
      (server_data_parts (server_data_bytes data)) 4)).getD (-1) = -1
    rw [hn]
    rfl
  · intro hn
    show (parseI32 (get_part_string
      (server_data_parts (server_data_bytes data)) 5)).getD (-1) = -1
    rw [hn]
    rfl

/-- C5, witness: the reply with payload `MCPE;m;abc;n;xx;yy` — all
three numeric tokens unparsable — succeeds with protocol 1,
online -1, max -1. -/
theorem c5_numeric_defaults_witness :
    processReply replyBadNumbers [104] 19132 ⟨1, 2, 3, 4, 19132⟩ =
      .ok (mkStatus [104] 19132 (serverGuid replyBadNumbers)
        ⟨1, 2, 3, 4, 19132⟩ (server_data_bytes replyBadNumbers)) ∧
    (mkStatus [104] 19132 (serverGuid replyBadNumbers)
      ⟨1, 2, 3, 4, 19132⟩
      (server_data_bytes replyBadNumbers)).version.protocol = 1 ∧
    (mkStatus [104] 19132 (serverGuid replyBadNumbers)
      ⟨1, 2, 3, 4, 19132⟩
      (server_data_bytes replyBadNumbers)).players.online = -1 ∧
    (mkStatus [104] 19132 (serverGuid replyBadNumbers)
      ⟨1, 2, 3, 4, 19132⟩
      (server_data_bytes replyBadNumbers)).players.max = -1 :=
  ⟨(c5_numeric_defaults replyBadNumbers [104] 19132 ⟨1, 2, 3, 4, 19132⟩
      (by decide) (by decide)).1,
   (c5_numeric_defaults replyBadNumbers [104] 19132 ⟨1, 2, 3, 4, 19132⟩
      (by decide) (by decide)).2.1 (by decide),
   (c5_numeric_defaults replyBadNumbers [104] 19132 ⟨1, 2, 3, 4, 19132⟩
      (by decide) (by decide)).2.2.1 (by decide),
   (c5_numeric_defaults replyBadNumbers [104] 19132 ⟨1, 2, 3, 4, 19132⟩
      (by decide) (by decide)).2.2.2 (by decide)⟩

/-- C6, counterexample: a reply whose payload byte `0xFF` is not valid
UTF-8 makes the call panic (`.expect("could not decode server data")`,
modelled as `utf8Fail`); there is no typed `EncodingError` result in
the code. -/
theorem c6_counterexample :
    processReply replyBadUtf8 [] 0 ⟨0, 0, 0, 0, 0⟩ =
      Except.error ReplyPanic.utf8Fail := by
  decide

/-- C6, amended: for every reply whose payload bytes are not valid
UTF-8, the call panics with the message `could not decode server data`
(a process abort via `expect`, not a typed error result). -/
theorem c6_invalid_utf8_panics_amended (data h : List Nat) (p : Int)
    (src : SocketAddrV4) (h35 : 35 ≤ recvAmt data)
    (hu : utf8Valid (server_data_bytes data) = false) :
    processReply data h p src = .error .utf8Fail := by
  unfold processReply
  rw [if_neg (by omega)]
  simp [hu]

/-- C6, witness: the amended statement at the concrete invalid-UTF-8
reply. -/
theorem c6_invalid_utf8_panics_amended_witness :
    35 ≤ recvAmt replyBadUtf8 ∧
    utf8Valid (server_data_bytes replyBadUtf8) = false ∧
    processReply replyBadUtf8 [] 0 ⟨0, 0, 0, 0, 0⟩ =
      .error .utf8Fail :=
  ⟨by decide, by decide,
   c6_invalid_utf8_panics_amended replyBadUtf8 [] 0 ⟨0, 0, 0, 0, 0⟩
     (by decide) (by decide)⟩

/-- C7, counterexample: no caller input can change either applied
socket timeout — `status` takes only a host and an optional port, and
both timeouts are the hard-coded `Duration::new(2, 0)`, so the claimed
configurability is false. -/
theorem c7_counterexample : ¬ timeoutConfigurable := by
  rintro (⟨x, y, hxy⟩ | ⟨x, y, hxy⟩) <;> exact hxy rfl

/-- C7, amended: on every call a read timeout and a write timeout of
exactly 2 seconds are applied to the socket; they are hard-coded, not
configurable by the caller. -/
theorem c7_timeouts_amended (args : StatusArgs) :
    appliedReadTimeout args = (2, 0) ∧
    appliedWriteTimeout args = (2, 0) :=
  ⟨rfl, rfl⟩

/-- C8: whenever the call produces a `Status`, its server GUID is the
big-endian signed 64-bit integer formed from reply bytes [9..17),
right after the 1-byte id and the 8-byte timestamp. -/
theorem c8_server_guid (data h : List Nat) (p : Int)
    (src : SocketAddrV4) (st : Status)
    (hok : processReply data h p src = .ok st) :
    st.server.guid = i64FromBeBytes ((data.drop 9).take 8) := by
  obtain ⟨h35, hu, rfl⟩ := (processReply_ok_iff data h p src st).mp hok
  show serverGuid data = i64FromBeBytes ((data.drop 9).take 8)
  rw [serverGuid, recvPacket_slice data 9 8 (by omega)]

/-- C8, witness: the statement at the concrete well-formed reply,
whose GUID bytes encode 7. -/
theorem c8_server_guid_witness :
    processReply goodReply [104] 19132 ⟨1, 2, 3, 4, 19132⟩ =
      .ok goodStatus ∧
    goodStatus.server.guid =
      i64FromBeBytes ((goodReply.drop 9).take 8) :=
  ⟨by decide,
   c8_server_guid goodReply [104] 19132 ⟨1, 2, 3, 4, 19132⟩ goodStatus
     (by decide)⟩

/-- C9, counterexample: for the reply whose text unique-id token
(index 6) is `42424242` while the binary server GUID is 7, the call
succeeds — but the returned `Status` does not expose the text token:
no field of the result carries `42424242` in textual or numeric form,
only the binary GUID is present. -/
theorem c9_counterexample :
    processReply replyMismatch [104] 19132 ⟨1, 2, 3, 4, 19132⟩ =
      .ok mismatchStatus ∧
    get_part_string
      (server_data_parts (server_data_bytes replyMismatch)) 6 =
      [52, 50, 52, 50, 52, 50, 52, 50] ∧
    mismatchStatus.server.guid = 7 ∧
    i64ToStringBytes mismatchStatus.server.guid ≠
      [52, 50, 52, 50, 52, 50, 52, 50] ∧
    mismatchStatus.server.host ≠ [52, 50, 52, 50, 52, 50, 52, 50] ∧
    mismatchStatus.server.remote_host ≠
      [52, 50, 52, 50, 52, 50, 52, 50] ∧
    mismatchStatus.server.edition ≠ [52, 50, 52, 50, 52, 50, 52, 50] ∧
    mismatchStatus.server.motd.1 ≠ [52, 50, 52, 50, 52, 50, 52, 50] ∧
    mismatchStatus.server.motd.2 ≠ [52, 50, 52, 50, 52, 50, 52, 50] ∧
    mismatchStatus.version.name ≠ [52, 50, 52, 50, 52, 50, 52, 50] ∧
    mismatchStatus.server.port ≠ 42424242 ∧
    mismatchStatus.server.guid ≠ 42424242 ∧
    mismatchStatus.version.protocol ≠ 42424242 ∧
    mismatchStatus.players.online ≠ 42424242 ∧
    mismatchStatus.players.max ≠ 42424242 := by
  decide

/-- C9, amended: a mismatch between the text unique-id token and the
binary server GUID is never treated as an error — the call succeeds
regardless — but only the binary GUID is exposed in the result; the
text token is read into `server_unique_id`, compared in an `if` with
an empty body, and discarded. -/
theorem c9_mismatch_ignored_amended (data h : List Nat) (p : Int)
    (src : SocketAddrV4) (h35 : 35 ≤ recvAmt data)
    (hu : utf8Valid (server_data_bytes data) = true)
    (_hmis : get_part_string
        (server_data_parts (server_data_bytes data)) 6 ≠
      i64ToStringBytes (serverGuid data)) :
    processReply data h p src =
      .ok (mkStatus h p (serverGuid data) src (server_data_bytes data)) ∧
    (mkStatus h p (serverGuid data) src
      (server_data_bytes data)).server.guid = serverGuid data := by
  refine ⟨?_, rfl⟩
  unfold processReply
  rw [if_neg (by omega)]
  simp [hu]

/-- C9, witness: the amended statement at the mismatching reply
(token 6 is `42424242`, GUID is 7). -/
theorem c9_mismatch_ignored_amended_witness :
    35 ≤ recvAmt replyMismatch ∧
    utf8Valid (server_data_bytes replyMismatch) = true ∧
    get_part_string
        (server_data_parts (server_data_bytes replyMismatch)) 6 ≠
      i64ToStringBytes (serverGuid replyMismatch) ∧
    (processReply replyMismatch [104] 19132 ⟨1, 2, 3, 4, 19132⟩ =
      .ok (mkStatus [104] 19132 (serverGuid replyMismatch)
        ⟨1, 2, 3, 4, 19132⟩ (server_data_bytes replyMismatch)) ∧
     (mkStatus [104] 19132 (serverGuid replyMismatch)
       ⟨1, 2, 3, 4, 19132⟩
       (server_data_bytes replyMismatch)).server.guid =
      serverGuid replyMismatch) :=
  ⟨by decide, by decide, by decide,
   c9_mismatch_ignored_amended replyMismatch [104] 19132
     ⟨1, 2, 3, 4, 19132⟩ (by decide) (by decide) (by decide)⟩

/-- C10: whenever the call produces a `Status`, its `remote_host` is
the rendered socket address the reply arrived from — the IP octets
joined by dots, then a colon (byte 58), then the port — not the bare
host address. -/
theorem c10_remote_host (data h : List Nat) (p : Int)
    (src : SocketAddrV4) (st : Status)
    (hok : processReply data h p src = .ok st) :
    st.server.remote_host = socketAddrToString src ∧
    socketAddrToString src =
      natDecimalBytes src.a ++ [46] ++ natDecimalBytes src.b ++ [46] ++
      natDecimalBytes src.c ++ [46] ++ natDecimalBytes src.d ++ [58] ++
      natDecimalBytes src.port := by
  obtain ⟨h35, hu, rfl⟩ := (processReply_ok_iff data h p src st).mp hok
  exact ⟨rfl, rfl⟩

/-- C10, witness: the statement at the concrete well-formed reply
arriving from `1.2.3.4:19132`. -/
theorem c10_remote_host_witness :
    goodStatus.server.remote_host =
      socketAddrToString ⟨1, 2, 3, 4, 19132⟩ ∧
    socketAddrToString ⟨1, 2, 3, 4, 19132⟩ =
      natDecimalBytes 1 ++ [46] ++ natDecimalBytes 2 ++ [46] ++
      natDecimalBytes 3 ++ [46] ++ natDecimalBytes 4 ++ [58] ++
      natDecimalBytes 19132 :=
  c10_remote_host goodReply [104] 19132 ⟨1, 2, 3, 4, 19132⟩ goodStatus
    (by decide)

end BedrockStatus
